import Mathlib

/-!
Shallow embedding of the Sovereign Instrument Endorsement / Discharging Engine
front-end (React + TypeScript).

Each component's `useState` slots are modelled as a record; each event handler
becomes a pure state-transition function.  An `async` handler additionally takes
the outcome of its single outbound generative-AI call as an explicit argument
(`Except Unit String`: failure, or the returned text) and returns, besides the
final state, a `Bool` recording whether the outbound request was actually
issued.  Where the synchronous prefix of a handler (the state visible while the
request is in flight) matters, it is embedded as a separate `...InFlight`
function.  JavaScript string operations (`toLowerCase`, `includes`, `trim`,
lexicographic comparison) are embedded as executable functions on `List Char`.
-/

/-! ## String helpers (JS string primitives on `List Char`) -/

/-- JS `s.toLowerCase()` on the character list of a string (ASCII case map). -/
def lowerChars (s : String) : List Char := s.data.map Char.toLower

/-- Auxiliary for `containsSub`: the needle is a leading segment of the hay. -/
def leadsWith : List Char → List Char → Bool
  | [], _ => true
  | _ :: _, [] => false
  | a :: as, b :: bs => a = b && leadsWith as bs

/-- JS `hay.includes(needle)` on character lists. -/
def containsSub (hay needle : List Char) : Bool :=
  match hay with
  | [] => leadsWith needle []
  | _ :: t => leadsWith needle hay || containsSub t needle

/-- Specification-side statement that `needle` occurs contiguously in `hay`. -/
def SubstrOf (needle hay : List Char) : Prop := ∃ l r, hay = l ++ needle ++ r

theorem leadsWith_iff (n h : List Char) : leadsWith n h = true ↔ ∃ r, h = n ++ r := by
  induction n generalizing h with
  | nil => simp [leadsWith]
  | cons a as ih =>
    cases h with
    | nil => simp [leadsWith]
    | cons b bs =>
      simp only [leadsWith, Bool.and_eq_true, decide_eq_true_eq, ih, List.cons_append,
        List.cons.injEq]
      constructor
      · rintro ⟨rfl, r, rfl⟩
        exact ⟨r, rfl, rfl⟩
      · rintro ⟨r, rfl, rfl⟩
        exact ⟨rfl, r, rfl⟩

theorem containsSub_iff (h n : List Char) : containsSub h n = true ↔ SubstrOf n h := by
  induction h with
  | nil =>
    simp only [containsSub, leadsWith_iff, SubstrOf]
    constructor
    · rintro ⟨r, hr⟩
      exact ⟨[], r, by simpa using hr⟩
    · rintro ⟨l, r, hr⟩
      exact ⟨r, by rw [List.nil_eq] at hr; simp_all⟩
  | cons c t ih =>
    simp only [containsSub, Bool.or_eq_true, leadsWith_iff, ih, SubstrOf]
    constructor
    · rintro (⟨r, hr⟩ | ⟨l, r, hr⟩)
      · exact ⟨[], r, by simpa using hr⟩
      · exact ⟨c :: l, r, by simp [hr]⟩
    · rintro ⟨l, r, hr⟩
      cases l with
      | nil => exact .inl ⟨r, by simpa using hr⟩
      | cons x xs =>
        simp only [List.cons_append, List.cons.injEq] at hr
        exact .inr ⟨xs, r, hr.2⟩

/-- Lexicographic `≤` on character lists by code point, the locale-independent
core of JS `String.prototype.localeCompare` as used by the resource screen. -/
def charListLe : List Char → List Char → Bool
  | [], _ => true
  | _ :: _, [] => false
  | a :: as, b :: bs =>
    if a.toNat < b.toNat then true
    else if b.toNat < a.toNat then false
    else charListLe as bs

/-- Lexicographic comparison lifted to `String`. -/
def strLe (a b : String) : Bool := charListLe a.data b.data

theorem charListLe_cons (a b : Char) (as bs : List Char) :
    charListLe (a :: as) (b :: bs) = true ↔
      a.toNat < b.toNat ∨ (a.toNat = b.toNat ∧ charListLe as bs = true) := by
  simp only [charListLe]
  split
  · simp; omega
  · split
    · simp; omega
    · constructor
      · intro hrec
        right
        exact ⟨by omega, hrec⟩
      · rintro (hlt | ⟨_, hrec⟩)
        · omega
        · exact hrec

theorem charListLe_total : ∀ a b : List Char, charListLe a b = true ∨ charListLe b a = true
  | [], _ => .inl rfl
  | _ :: _, [] => .inr rfl
  | a :: as, b :: bs => by
    rcases Nat.lt_trichotomy a.toNat b.toNat with h | h | h
    · exact .inl ((charListLe_cons a b as bs).mpr (.inl h))
    · rcases charListLe_total as bs with hrec | hrec
      · exact .inl ((charListLe_cons a b as bs).mpr (.inr ⟨h, hrec⟩))
      · exact .inr ((charListLe_cons b a bs as).mpr (.inr ⟨h.symm, hrec⟩))
    · exact .inr ((charListLe_cons b a bs as).mpr (.inl h))

theorem charListLe_trans : ∀ a b c : List Char,
    charListLe a b = true → charListLe b c = true → charListLe a c = true
  | [], _, _, _, _ => rfl
  | _ :: _, [], _, hab, _ => by simp [charListLe] at hab
  | _ :: _, _ :: _, [], _, hbc => by simp [charListLe] at hbc
  | a :: as, b :: bs, c :: cs, hab, hbc => by
    rw [charListLe_cons] at hab hbc ⊢
    rcases hab with hab | ⟨hab, habrec⟩
    · rcases hbc with hbc | ⟨hbc, _⟩
      · exact .inl (by omega)
      · exact .inl (by omega)
    · rcases hbc with hbc | ⟨hbc, hbcrec⟩
      · exact .inl (by omega)
      · exact .inr ⟨by omega, charListLe_trans as bs cs habrec hbcrec⟩

/-- JS `s.trim()` on a character list: strip leading and trailing whitespace. -/
def trimChars (cs : List Char) : List Char :=
  ((cs.dropWhile Char.isWhitespace).reverse.dropWhile Char.isWhitespace).reverse

/-- JS `s.trim()` on `String`. -/
def trimStr (s : String) : String := String.mk (trimChars s.data)

/-! ## File ingestion: shared file metadata

A browser `File` is embedded by the fields the code reads: `name`, declared
MIME `type` and `size`. -/

structure FileInfo where
  name : String
  type : String
  size : Nat
deriving DecidableEq, Repr

/-! ## InstrumentProcessor (src/components/Header.tsx) -/

namespace Instrument

/-- The `useState` slots of `InstrumentProcessor` (Header.tsx lines 18-21). -/
structure State where
  file : Option FileInfo
  analysis : String
  isLoading : Bool
  error : Option String
deriving DecidableEq, Repr

/-- Header.tsx line 26: `const allowedTypes = ['image/jpeg', 'image/png', 'application/pdf']`. -/
def allowedTypes : List String := ["image/jpeg", "image/png", "application/pdf"]

/-- Header.tsx line 29 error message. -/
def unsupportedMsg : String := "Unsupported file type. Please upload a .jpg, .png, or .pdf file."

/-- `handleFileChange` (Header.tsx lines 23-39).  `event.target.files` is
embedded as `Option (List FileInfo)` (`null` or a FileList); the handler acts
only when the list is non-null and non-empty, taking `files[0]`. -/
def handleFileChange (s : State) (files : Option (List FileInfo)) : State :=
  match files with
  | some (selectedFile :: _) =>
    if allowedTypes.contains selectedFile.type = false then
      { s with error := some unsupportedMsg, file := none, analysis := "" }
    else
      { s with file := some selectedFile, analysis := "", error := none }
  | _ => s

/-- The asynchronous outcome of the read-and-analyze pipeline of
`handleAnalyze` (Header.tsx lines 48-97): the `FileReader` can fire `onerror`
(line 93); `onload` can find an empty or unparseable data URL and throw before
any request is made (lines 52-61); otherwise the single API call is issued and
either returns text or rejects. -/
inductive ReadEvent where
  | readError
  | loadBad
  | loadOk (api : Except Unit String)
deriving Repr

/-- Header.tsx line 88, the generic failure message of the analyze action. -/
def analysisFailureMsg : String :=
  "Failed to analyze the instrument. The file may be in an unsupported format or there was an issue with the AI service. Please try again."

/-- Header.tsx line 94, the message of the `FileReader.onerror` path. -/
def readFailureMsg : String := "Failed to read the file. Please ensure it is a valid file."

/-- The synchronous prefix of `handleAnalyze` (Header.tsx lines 42-46): the
state visible while the request is in flight. -/
def handleAnalyzeInFlight (s : State) : State :=
  match s.file with
  | none => s
  | some _ => { s with isLoading := true, error := none, analysis := "" }

/-- `handleAnalyze` (Header.tsx lines 41-98), collapsed over its asynchronous
completion: final state, and whether the outbound API request was issued. -/
def handleAnalyze (s : State) (ev : ReadEvent) : State × Bool :=
  match s.file with
  | none => (s, false)
  | some _ =>
    let pre : State := { s with isLoading := true, error := none, analysis := "" }
    match ev with
    | .readError => ({ pre with error := some readFailureMsg, isLoading := false }, false)
    | .loadBad => ({ pre with error := some analysisFailureMsg, isLoading := false }, false)
    | .loadOk (.ok text) => ({ pre with analysis := text, isLoading := false }, true)
    | .loadOk (.error _) => ({ pre with error := some analysisFailureMsg, isLoading := false }, true)

/-- Header.tsx line 128: the Parse button is disabled when `!file || isLoading`. -/
def analyzeDisabled (s : State) : Bool := s.file = none || s.isLoading

/-- A click on the Parse button: the handler runs only when the button is
enabled (Header.tsx lines 126-132). -/
def clickAnalyze (s : State) (ev : ReadEvent) : State × Bool :=
  if analyzeDisabled s then (s, false) else handleAnalyze s ev

end Instrument

/-! ## VehicleFinancingAnalysis (src/components/VehicleFinancingAnalysis.tsx) -/

namespace Vehicle

/-- The `useState` slots of `VehicleFinancingAnalysis` (lines 17-22). -/
structure State where
  file : Option FileInfo
  analysis : String
  isLoading : Bool
  error : Option String
  remedyLetter : String
  isGenerating : Bool
deriving DecidableEq, Repr

/-- VehicleFinancingAnalysis.tsx line 27. -/
def allowedTypes : List String := ["application/pdf", "image/jpeg", "image/png"]

/-- VehicleFinancingAnalysis.tsx line 30 error message. -/
def unsupportedMsg : String := "Unsupported file type. Please upload a PDF, JPG, or PNG file."

/-- `handleFileChange` (VehicleFinancingAnalysis.tsx lines 24-42). -/
def handleFileChange (s : State) (files : Option (List FileInfo)) : State :=
  match files with
  | some (selectedFile :: _) =>
    if allowedTypes.contains selectedFile.type = false then
      { s with error := some unsupportedMsg, file := none, analysis := "", remedyLetter := "" }
    else
      { s with file := some selectedFile, analysis := "", remedyLetter := "", error := none }
  | _ => s

/-- Asynchronous outcome of `handleAnalyze` (lines 60-90): the
`fileToGenerativePart` promise can reject before any request is issued
(lines 44-58); otherwise the API call is issued and returns text or rejects. -/
inductive AnalyzeEvent where
  | filePartErr
  | api (r : Except Unit String)
deriving Repr

/-- VehicleFinancingAnalysis.tsx line 86, generic analyze failure message. -/
def analyzeFailureMsg : String := "Failed to analyze the contract. Please try again."

/-- VehicleFinancingAnalysis.tsx line 113, generic remedy failure message. -/
def remedyFailureMsg : String := "Failed to generate the remedy letter. Please try again."

/-- Synchronous prefix of `handleAnalyze` (lines 60-66). -/
def handleAnalyzeInFlight (s : State) : State :=
  match s.file with
  | none => s
  | some _ => { s with isLoading := true, error := none, analysis := "", remedyLetter := "" }

/-- `handleAnalyze` (lines 60-90), collapsed over its asynchronous completion. -/
def handleAnalyze (s : State) (ev : AnalyzeEvent) : State × Bool :=
  match s.file with
  | none => (s, false)
  | some _ =>
    let pre : State := { s with isLoading := true, error := none, analysis := "", remedyLetter := "" }
    match ev with
    | .filePartErr => ({ pre with error := some analyzeFailureMsg, isLoading := false }, false)
    | .api (.ok text) => ({ pre with analysis := text, isLoading := false }, true)
    | .api (.error _) => ({ pre with error := some analyzeFailureMsg, isLoading := false }, true)

/-- Synchronous prefix of `handleGenerateRemedy` (lines 92-96): guard on the
analysis, then `setIsGenerating(true); setError(null)`.  Note: the previous
`remedyLetter` is not touched here. -/
def handleGenerateRemedyInFlight (s : State) : State :=
  if s.analysis = "" then s else { s with isGenerating := true, error := none }

/-- `handleGenerateRemedy` (lines 92-117), collapsed over its completion. -/
def handleGenerateRemedy (s : State) (r : Except Unit String) : State × Bool :=
  if s.analysis = "" then (s, false)
  else
    let pre : State := { s with isGenerating := true, error := none }
    match r with
    | .ok text => ({ pre with remedyLetter := text, isGenerating := false }, true)
    | .error _ => ({ pre with error := some remedyFailureMsg, isGenerating := false }, true)

/-- Line 146: the Analyze button is disabled when `!file || isLoading`. -/
def analyzeDisabled (s : State) : Bool := s.file = none || s.isLoading

/-- A click on the Analyze Contract button (lines 145-149). -/
def clickAnalyze (s : State) (ev : AnalyzeEvent) : State × Bool :=
  if analyzeDisabled s then (s, false) else handleAnalyze s ev

/-- Line 159: the Generate Remedy button is disabled when `isGenerating`; the
button is rendered only inside the `analysis && ...` block (line 154). -/
def generateRemedyDisabled (s : State) : Bool := s.isGenerating

/-- A click on the Generate Remedy Letter button (lines 154-163): possible only
when the button is rendered (non-empty analysis) and enabled. -/
def clickGenerateRemedy (s : State) (r : Except Unit String) : State × Bool :=
  if s.analysis = "" || generateRemedyDisabled s then (s, false) else handleGenerateRemedy s r

end Vehicle

/-! ## DebtCollectorLog (src/unnamed/part_000) -/

namespace DebtLog

/-- `LogEntry` (part_000 lines 4-11). -/
structure LogEntry where
  id : Nat
  date : String
  collectorName : String
  company : String
  description : String
  violationSuggestion : String
deriving DecidableEq, Repr

/-- The draft form fields `newLog` (part_000 line 28). -/
structure DraftLog where
  date : String
  collectorName : String
  company : String
  description : String
deriving DecidableEq, Repr

/-- The `useState` slots of `DebtCollectorLog` (part_000 lines 27-33). -/
structure State where
  logs : List LogEntry
  newLog : DraftLog
  violationSuggestion : String
  isSuggesting : Bool
  ceaseAndDesist : String
  isGenerating : Bool
  error : Option String
deriving DecidableEq, Repr

/-- part_000 line 55, generic suggestion failure message. -/
def suggestFailureMsg : String := "Could not get AI suggestion. Please try again."

/-- part_000 line 92, generic letter failure message. -/
def ceaseFailureMsg : String := "Failed to generate Cease & Desist letter."

/-- Synchronous prefix of `handleSuggestViolation` (part_000 lines 40-44). -/
def handleSuggestViolationInFlight (s : State) : State :=
  if s.newLog.description = "" then s
  else { s with isSuggesting := true, error := none, violationSuggestion := "" }

/-- `handleSuggestViolation` (part_000 lines 40-59), collapsed over completion. -/
def handleSuggestViolation (s : State) (r : Except Unit String) : State × Bool :=
  if s.newLog.description = "" then (s, false)
  else
    let pre : State := { s with isSuggesting := true, error := none, violationSuggestion := "" }
    match r with
    | .ok text => ({ pre with violationSuggestion := text, isSuggesting := false }, true)
    | .error _ => ({ pre with error := some suggestFailureMsg, isSuggesting := false }, true)

/-- `handleAddLog` (part_000 lines 61-71): append the entry with id
`Date.now()` (passed in as `now`), freezing the displayed draft suggestion,
then clear the draft form and the draft suggestion. -/
def handleAddLog (s : State) (now : Nat) : State :=
  { s with
      logs := s.logs ++
        [⟨now, s.newLog.date, s.newLog.collectorName, s.newLog.company,
          s.newLog.description, s.violationSuggestion⟩],
      newLog := ⟨"", "", "", ""⟩,
      violationSuggestion := "" }

/-- A submit of the log form (part_000 lines 111-127): all four inputs carry
the `required` attribute (lines 112-115), so the browser fires the submit
event — and hence `handleAddLog` — only when every required field is
populated. -/
def submitLog (s : State) (now : Nat) : State :=
  if s.newLog.date = "" ∨ s.newLog.collectorName = "" ∨ s.newLog.company = "" ∨
      s.newLog.description = "" then s
  else handleAddLog s now

/-- The rendered interaction history (part_000 lines 133-140):
`logs.map(...)`, then `.reverse()`, so the display is most-recent-first. -/
def renderedLogs (s : State) : List LogEntry := s.logs.reverse

/-- Synchronous prefix of `handleGenerateCeaseAndDesist` (part_000 lines 73-76). -/
def handleGenerateCeaseInFlight (s : State) : State :=
  if s.logs = [] then s else { s with isGenerating := true, error := none }

/-- `handleGenerateCeaseAndDesist` (part_000 lines 73-96), collapsed over
completion.  Note: the previous `ceaseAndDesist` letter is not cleared before
the call. -/
def handleGenerateCeaseAndDesist (s : State) (r : Except Unit String) : State × Bool :=
  if s.logs = [] then (s, false)
  else
    let pre : State := { s with isGenerating := true, error := none }
    match r with
    | .ok text => ({ pre with ceaseAndDesist := text, isGenerating := false }, true)
    | .error _ => ({ pre with error := some ceaseFailureMsg, isGenerating := false }, true)

/-- part_000 line 117: the Suggest Violation button is disabled when
`isSuggesting || !newLog.description`. -/
def suggestViolationDisabled (s : State) : Bool :=
  s.isSuggesting || s.newLog.description == ""

/-- A click on the Suggest Violation button (part_000 lines 117-119). -/
def clickSuggestViolation (s : State) (r : Except Unit String) : State × Bool :=
  if suggestViolationDisabled s then (s, false) else handleSuggestViolation s r

/-- part_000 line 149: the Generate Cease & Desist button is disabled when
`isGenerating`; it is rendered only when `logs.length > 0` (line 147). -/
def generateCeaseDisabled (s : State) : Bool := s.isGenerating

/-- A click on the Generate Cease & Desist button (part_000 lines 147-153). -/
def clickGenerateCease (s : State) (r : Except Unit String) : State × Bool :=
  if s.logs = [] || generateCeaseDisabled s then (s, false)
  else handleGenerateCeaseAndDesist s r

end DebtLog

/-! ## LegalResources (src/unnamed/part_001) -/

namespace Legal

/-- `Resource` (part_001 lines 71-75); the draft form `newResource`
(line 89) has the same three fields. -/
structure Resource where
  name : String
  url : String
  category : String
deriving DecidableEq, Repr

/-- `initialResources` (part_001 lines 77-84). -/
def initialResources : List Resource :=
  [⟨"UCC Article 3 - Negotiable Instruments", "https://www.law.cornell.edu/ucc/3", "UCC"⟩,
   ⟨"UCC Article 9 - Secured Transactions", "https://www.law.cornell.edu/ucc/9", "UCC"⟩,
   ⟨"Fair Credit Reporting Act (FCRA) - FTC",
    "https://www.ftc.gov/legal-library/browse/statutes/fair-credit-reporting-act", "Statutes"⟩,
   ⟨"Fair Debt Collection Practices Act (FDCPA) - FTC",
    "https://www.ftc.gov/legal-library/browse/statutes/fair-debt-collection-practices-act",
    "Statutes"⟩,
   ⟨"Truth in Lending Act (TILA) - CFPB",
    "https://www.consumerfinance.gov/rules-policy/regulations/1026/", "Statutes"⟩,
   ⟨"Black\x27s Law Dictionary 4th Edition",
    "https://archive.org/details/blackslawdiction00blac", "Reference"⟩]

/-- The `useState` slots of `LegalResources` (part_001 lines 87-89). -/
structure State where
  resources : List Resource
  searchTerm : String
  newResource : Resource
deriving DecidableEq, Repr

/-- `handleAddResource` (part_001 lines 91-97): `if (name && url && category)`
(JS truthiness on strings is non-emptiness) append the draft and reset it. -/
def handleAddResource (s : State) : State :=
  if s.newResource.name ≠ "" ∧ s.newResource.url ≠ "" ∧ s.newResource.category ≠ "" then
    { s with resources := s.resources ++ [s.newResource], newResource := ⟨"", "", ""⟩ }
  else s

/-- The filter predicate of `filteredResources` (part_001 lines 105-109):
case-insensitive `includes` across name, url and category. -/
def matchesQuery (searchTerm : String) (r : Resource) : Bool :=
  containsSub (lowerChars r.name) (lowerChars searchTerm) ||
  containsSub (lowerChars r.url) (lowerChars searchTerm) ||
  containsSub (lowerChars r.category) (lowerChars searchTerm)

/-- `filteredResources` (part_001 lines 104-110). -/
def filteredResources (resources : List Resource) (searchTerm : String) : List Resource :=
  resources.filter (matchesQuery searchTerm)

/-- The grouping key of a resource (part_001 line 114):
`resource.category.trim() || 'Uncategorized'`. -/
def catKey (r : Resource) : String :=
  if trimStr r.category = "" then "Uncategorized" else trimStr r.category

/-- Key accumulation of the `reduce` on part_001 lines 112-118: a plain-object
key is created at the first resource that carries it (JS object keys of
non-numeric strings iterate in insertion order). -/
def insertKeyOnce (ks : List String) (k : String) : List String :=
  if ks.contains k then ks else ks ++ [k]

/-- The keys of `groupedResources` in insertion order. -/
def groupKeys (rs : List Resource) : List String :=
  rs.foldl (fun ks r => insertKeyOnce ks (catKey r)) []

/-- `groupedResources` (part_001 lines 112-118) as an association list: each
key maps to the filtered resources pushed under it, in order. -/
def groupedResources (rs : List Resource) : List (String × List Resource) :=
  (groupKeys rs).map (fun k => (k, rs.filter (fun r => catKey r == k)))

/-- The comparator of the rendering sort (part_001 line 186):
`catA.localeCompare(catB)`, embedded as lexicographic string comparison. -/
def groupLe (a b : String × List Resource) : Prop := strLe a.1 b.1 = true

instance : DecidableRel groupLe := fun _ _ => inferInstanceAs (Decidable (_ = true))

instance : IsTotal (String × List Resource) groupLe :=
  ⟨fun a b => charListLe_total a.1.data b.1.data⟩

instance : IsTrans (String × List Resource) groupLe :=
  ⟨fun _ _ _ hab hbc => charListLe_trans _ _ _ hab hbc⟩

/-- The rendered group list (part_001 lines 185-186):
`Object.entries(groupedResources).sort(([catA],[catB]) => catA.localeCompare(catB))`.
`Array.prototype.sort` is stable, embedded as insertion sort. -/
def renderGroups (rs : List Resource) (searchTerm : String) : List (String × List Resource) :=
  List.insertionSort groupLe (groupedResources (filteredResources rs searchTerm))

/-- The empty-state branch of the rendering (part_001 lines 185 and 205-208):
shown when `Object.keys(groupedResources).length` is zero. -/
def emptyStateShown (rs : List Resource) (searchTerm : String) : Bool :=
  (groupedResources (filteredResources rs searchTerm)).length == 0

end Legal

/-! ## EndorsementModal with citation links (src/unnamed/part_002) -/

namespace Modal

/-- `ExplanationState` (part_002 lines 24-28).  The source field `section` is a
Lean keyword and is embedded as `sectionId`. -/
structure ExplanationState where
  sectionId : String
  text : String
  isLoading : Bool
deriving DecidableEq, Repr

/-- part_002 line 55, failure text of the explain action. -/
def failedMsg : String := "Failed to load explanation."

/-- Completion of the secondary explain request (part_002 lines 42-56): the
final slot value and the fact that a request was issued. -/
def explainRequest (sec : String) (r : Except Unit String) :
    Option ExplanationState × Bool :=
  match r with
  | .ok text => (some ⟨sec, text, false⟩, true)
  | .error _ => (some ⟨sec, failedMsg, false⟩, true)

/-- The slot state while the explain request is in flight (part_002 line 42). -/
def explainInFlight (sec : String) : Option ExplanationState := some ⟨sec, "", true⟩

/-- `handleExplainSection` (part_002 lines 35-57), collapsed over completion:
if the same section is already shown with non-empty text, hide it and issue no
request; otherwise issue the secondary request and store its result. -/
def handleExplainSection (cur : Option ExplanationState) (sec : String)
    (r : Except Unit String) : Option ExplanationState × Bool :=
  match cur with
  | some e => if e.sectionId = sec ∧ e.text ≠ "" then (none, false) else explainRequest sec r
  | none => explainRequest sec r

/-! ### Citation extraction (`renderContentWithLinks`, part_002 lines 59-100)

The source splits the content with `text.split(/(\[UCC §\d-\d{3}\])/g)`; the
capture group makes `split` return the matched citation tokens interleaved with
the plain segments.  The split is embedded as a left-to-right scanner over the
character list. -/

/-- One part of the split: a plain segment, or a citation token holding the
captured section reference (digit, dash, three digits). -/
inductive Seg where
  | plain (cs : List Char)
  | cite (sec : List Char)
deriving DecidableEq, Repr

/-- The full text of a citation token with the given captured section. -/
def citeToken (sec : List Char) : List Char :=
  '[' :: 'U' :: 'C' :: 'C' :: ' ' :: '§' :: (sec ++ [']'])

/-- The original text of one part. -/
def segText : Seg → List Char
  | .plain cs => cs
  | .cite sec => citeToken sec

/-- Well-formedness of a captured section: `\d-\d{3}`. -/
def citeWF (sec : List Char) : Bool :=
  match sec with
  | [d, '-', h, t, u] => d.isDigit && h.isDigit && t.isDigit && u.isDigit
  | _ => false

/-- Try to match `\[UCC §\d-\d{3}\]` at the head of the list, returning the
captured section and the remainder. -/
def citationAt : List Char → Option (List Char × List Char)
  | '[' :: 'U' :: 'C' :: 'C' :: ' ' :: '§' :: d :: '-' :: h :: t :: u :: ']' :: rest =>
    if d.isDigit && h.isDigit && t.isDigit && u.isDigit then
      some ([d, '-', h, t, u], rest)
    else none
  | _ => none

/-- Fuel-indexed scanner: `acc` holds the pending plain characters in reverse.
At every position either the citation pattern matches (emit the pending plain
segment and the token) or one character joins the pending segment.  One unit of
fuel is spent per step, so `s.length` fuel always suffices; the fuel-exhausted
arm keeps the remaining text as a plain segment so that the split never drops
text. -/
def scanSegs : Nat → List Char → List Char → List Seg
  | 0, acc, s => [.plain (acc.reverse ++ s)]
  | _ + 1, acc, [] => [.plain acc.reverse]
  | fuel + 1, acc, c :: rest =>
    match citationAt (c :: rest) with
    | some (sec, rest2) => .plain acc.reverse :: .cite sec :: scanSegs fuel [] rest2
    | none => scanSegs fuel (c :: acc) rest

/-- The split of `renderContentWithLinks` (part_002 lines 62-63). -/
def splitCitations (s : String) : List Seg := scanSegs s.data.length [] s.data

/-- Concatenation of the original text of all parts, in order. -/
def segsJoin : List Seg → List Char
  | [] => []
  | seg :: rest => segText seg ++ segsJoin rest

/-- The parts alternate strictly: plain, citation, plain, …, ending in a plain
segment, and every citation token is a well-formed bracketed UCC
article-and-section reference. -/
inductive AltSegs : List Seg → Prop where
  | last (cs : List Char) : AltSegs [.plain cs]
  | step (cs sec : List Char) (rest : List Seg) :
      citeWF sec = true → AltSegs rest → AltSegs (.plain cs :: .cite sec :: rest)

end Modal

namespace Modal

theorem citationAt_spec (s sec rest : List Char) (h : citationAt s = some (sec, rest)) :
    citeToken sec ++ rest = s ∧ citeWF sec = true := by
  unfold citationAt at h
  split at h
  · split at h
    · rename_i hcond
      simp only [Option.some.injEq, Prod.mk.injEq] at h
      obtain ⟨hsec, hrest⟩ := h
      subst hsec
      subst hrest
      refine ⟨by simp [citeToken], ?_⟩
      simpa [citeWF] using hcond
    · exact absurd h (by simp)
  · exact absurd h (by simp)

theorem scanSegs_join (fuel : Nat) (acc s : List Char) :
    segsJoin (scanSegs fuel acc s) = acc.reverse ++ s := by
  induction fuel generalizing acc s with
  | zero => simp [scanSegs, segsJoin, segText]
  | succ n ih =>
    match s with
    | [] => simp [scanSegs, segsJoin, segText]
    | c :: rest =>
      rw [scanSegs]
      cases hc : citationAt (c :: rest) with
      | none =>
        rw [ih]
        simp
      | some pr =>
        obtain ⟨sec, rest2⟩ := pr
        simp only [segsJoin, segText, ih, List.reverse_nil, List.nil_append, List.append_nil]
        rw [(citationAt_spec _ _ _ hc).1]

theorem scanSegs_alt (fuel : Nat) (acc s : List Char) : AltSegs (scanSegs fuel acc s) := by
  induction fuel generalizing acc s with
  | zero => exact .last _
  | succ n ih =>
    match s with
    | [] => exact .last _
    | c :: rest =>
      rw [scanSegs]
      cases hc : citationAt (c :: rest) with
      | none => exact ih _ _
      | some pr =>
        obtain ⟨sec, rest2⟩ := pr
        exact .step _ _ _ (citationAt_spec _ _ _ hc).2 (ih _ _)

end Modal

example :
    Modal.splitCitations "See [UCC §3-205] and [UCC §9-102]." =
      [.plain "See ".data, .cite "3-205".data, .plain " and ".data,
       .cite "9-102".data, .plain ".".data] := by decide

example :
    Modal.splitCitations "[UCC §3-2055] is not a token" =
      [.plain "[UCC §3-2055] is not a token".data] := by decide

namespace Legal

theorem mem_insertKeyOnce (ks : List String) (k k' : String) (hk : k ∈ ks) :
    k ∈ insertKeyOnce ks k' := by
  unfold insertKeyOnce
  split
  · exact hk
  · exact List.mem_append_left _ hk

theorem self_mem_insertKeyOnce (ks : List String) (k : String) : k ∈ insertKeyOnce ks k := by
  unfold insertKeyOnce
  split
  · next hc => exact List.elem_iff.mp hc
  · exact List.mem_append_right _ (List.mem_singleton.mpr rfl)

theorem mem_foldl_insertKeyOnce (l : List Resource) (ks : List String) (k : String)
    (hk : k ∈ ks) : k ∈ l.foldl (fun ks r => insertKeyOnce ks (catKey r)) ks := by
  induction l generalizing ks with
  | nil => exact hk
  | cons r t ih =>
    simp only [List.foldl_cons]
    exact ih _ (mem_insertKeyOnce _ _ _ hk)

theorem catKey_mem_foldl (l : List Resource) (r : Resource) (hr : r ∈ l) (ks : List String) :
    catKey r ∈ l.foldl (fun ks r => insertKeyOnce ks (catKey r)) ks := by
  induction l generalizing ks with
  | nil => cases hr
  | cons r' t ih =>
    simp only [List.foldl_cons]
    rcases List.mem_cons.mp hr with rfl | hmem
    · exact mem_foldl_insertKeyOnce _ _ _ (self_mem_insertKeyOnce _ _)
    · exact ih hmem _

theorem catKey_mem_groupKeys (rs : List Resource) (r : Resource) (hr : r ∈ rs) :
    catKey r ∈ groupKeys rs :=
  catKey_mem_foldl rs r hr []

theorem mem_groupedResources (rs : List Resource) (k : String) (items : List Resource)
    (h : (k, items) ∈ groupedResources rs) :
    items = rs.filter (fun r => catKey r == k) := by
  unfold groupedResources at h
  simp only [List.mem_map, Prod.mk.injEq] at h
  obtain ⟨k', _, rfl, rfl⟩ := h
  rfl

theorem fst_groupedResources (rs : List Resource) :
    (groupedResources rs).map Prod.fst = groupKeys rs := by
  unfold groupedResources
  simp [Function.comp_def]

end Legal

/-! ## Claim theorems -/

/-- C1: for every selected file whose declared MIME type is not in the fixed
allow-list (application/pdf, image/jpeg, image/png), the file-change handler of
each upload screen sets the user-visible error message, clears the stored file
and any prior analysis result (and, on the vehicle screen, the prior remedy
letter), and the analyze handler on the resulting state is a no-op that issues
no outbound request. -/
theorem claim_C1 (si : Instrument.State) (sv : Vehicle.State) (f : FileInfo)
    (rest : List FileInfo) (evI : Instrument.ReadEvent) (evV : Vehicle.AnalyzeEvent)
    (h1 : f.type ≠ "application/pdf") (h2 : f.type ≠ "image/jpeg")
    (h3 : f.type ≠ "image/png") :
    Instrument.handleFileChange si (some (f :: rest)) =
      { si with error := some Instrument.unsupportedMsg, file := none, analysis := "" } ∧
    Instrument.handleAnalyze (Instrument.handleFileChange si (some (f :: rest))) evI =
      (Instrument.handleFileChange si (some (f :: rest)), false) ∧
    Vehicle.handleFileChange sv (some (f :: rest)) =
      { sv with error := some Vehicle.unsupportedMsg, file := none, analysis := "",
                remedyLetter := "" } ∧
    Vehicle.handleAnalyze (Vehicle.handleFileChange sv (some (f :: rest))) evV =
      (Vehicle.handleFileChange sv (some (f :: rest)), false) := by
  have hcI : f.type ∉ Instrument.allowedTypes := by
    simp [Instrument.allowedTypes, h1, h2, h3]
  have hcV : f.type ∉ Vehicle.allowedTypes := by
    simp [Vehicle.allowedTypes, h1, h2, h3]
  have hI : Instrument.handleFileChange si (some (f :: rest)) =
      { si with error := some Instrument.unsupportedMsg, file := none, analysis := "" } := by
    simp [Instrument.handleFileChange, hcI]
  have hV : Vehicle.handleFileChange sv (some (f :: rest)) =
      { sv with error := some Vehicle.unsupportedMsg, file := none, analysis := "",
                remedyLetter := "" } := by
    simp [Vehicle.handleFileChange, hcV]
  refine ⟨hI, ?_, hV, ?_⟩
  · rw [hI]
    rfl
  · rw [hV]
    rfl

/-- C1 witness: a concrete `text/plain` upload is rejected and the stored file
is cleared. -/
theorem claim_C1_witness :
    Instrument.handleFileChange ⟨some ⟨"old.png", "image/png", 5⟩, "prior", false, none⟩
        (some [⟨"doc.txt", "text/plain", 9⟩]) =
      ⟨none, "", false, some Instrument.unsupportedMsg⟩ :=
  (claim_C1 ⟨some ⟨"old.png", "image/png", 5⟩, "prior", false, none⟩
      ⟨none, "", false, none, "", false⟩ ⟨"doc.txt", "text/plain", 9⟩ [] .readError
      (.api (.ok "")) (by decide) (by decide) (by decide)).1

/-- C2 counterexample: the remedy-letter handler does not clear the previous
result of its own state slot before issuing the outbound call — with a stored
analysis and a previous letter, the in-flight state (loading set, call under
way) still holds the old letter, and the cease-and-desist handler behaves the
same way. -/
theorem claim_C2_counterexample :
    (Vehicle.handleGenerateRemedyInFlight
        ⟨none, "ANALYSIS", false, none, "OLD LETTER", false⟩).isGenerating = true ∧
    (Vehicle.handleGenerateRemedyInFlight
        ⟨none, "ANALYSIS", false, none, "OLD LETTER", false⟩).remedyLetter = "OLD LETTER" ∧
    "OLD LETTER" ≠ "" ∧
    (Vehicle.handleGenerateRemedy ⟨none, "ANALYSIS", false, none, "OLD LETTER", false⟩
        (Except.ok "NEW")).2 = true ∧
    (DebtLog.handleGenerateCeaseInFlight
        ⟨[⟨0, "2024-01-01", "N", "C", "D", ""⟩], ⟨"", "", "", ""⟩, "", false, "OLD CD", false,
         none⟩).ceaseAndDesist = "OLD CD" := by
  refine ⟨rfl, rfl, by decide, rfl, rfl⟩

/-- C2 (amended): every AI-backed action handler sets its loading flag true and
clears any previous error before issuing the outbound call, stores the returned
text in its own slot on success, stores a generic error string on failure, and
in all cases the loading flag is false after completion; the analyze handler
additionally clears its previous result before the call, while the
letter-generation handlers (remedy, cease-and-desist) leave the previous letter
in place until the new response arrives. -/
theorem claim_C2_amended (sv : Vehicle.State) (sd : DebtLog.State) (si : Instrument.State)
    (t : String) (hv : sv.analysis ≠ "") (hd : sd.logs ≠ []) (hi : si.file ≠ none) :
    Vehicle.handleGenerateRemedyInFlight sv = { sv with isGenerating := true, error := none } ∧
    Vehicle.handleGenerateRemedy sv (Except.ok t) =
      ({ sv with isGenerating := false, error := none, remedyLetter := t }, true) ∧
    Vehicle.handleGenerateRemedy sv (Except.error ()) =
      ({ sv with isGenerating := false, error := some Vehicle.remedyFailureMsg }, true) ∧
    DebtLog.handleGenerateCeaseInFlight sd = { sd with isGenerating := true, error := none } ∧
    DebtLog.handleGenerateCeaseAndDesist sd (Except.ok t) =
      ({ sd with isGenerating := false, error := none, ceaseAndDesist := t }, true) ∧
    DebtLog.handleGenerateCeaseAndDesist sd (Except.error ()) =
      ({ sd with isGenerating := false, error := some DebtLog.ceaseFailureMsg }, true) ∧
    Instrument.handleAnalyzeInFlight si =
      { si with isLoading := true, error := none, analysis := "" } ∧
    Instrument.handleAnalyze si (.loadOk (Except.ok t)) =
      ({ si with isLoading := false, error := none, analysis := t }, true) ∧
    Instrument.handleAnalyze si (.loadOk (Except.error ())) =
      ({ si with isLoading := false, error := some Instrument.analysisFailureMsg,
                 analysis := "" }, true) := by
  obtain ⟨fi, hfi⟩ := Option.ne_none_iff_exists'.mp hi
  refine ⟨?_, ?_, ?_, ?_, ?_, ?_, ?_, ?_, ?_⟩ <;>
    simp [Vehicle.handleGenerateRemedyInFlight, Vehicle.handleGenerateRemedy,
      DebtLog.handleGenerateCeaseInFlight, DebtLog.handleGenerateCeaseAndDesist,
      Instrument.handleAnalyzeInFlight, Instrument.handleAnalyze, hv, hd, hfi]

/-- C2 witness for the amended claim, at a concrete state of each screen. -/
theorem claim_C2_amended_witness :
    Vehicle.handleGenerateRemedy ⟨none, "A", false, none, "OLD", false⟩ (Except.ok "NEW") =
      (⟨none, "A", false, none, "NEW", false⟩, true) :=
  (claim_C2_amended ⟨none, "A", false, none, "OLD", false⟩
      ⟨[⟨0, "d", "n", "c", "x", ""⟩], ⟨"", "", "", ""⟩, "", false, "", false, none⟩
      ⟨some ⟨"f.png", "image/png", 1⟩, "", false, none⟩ "NEW"
      (by decide) (by decide) (by decide)).2.1

/-- C3 counterexample: invoking the remedy handler while its own request is
already in flight (`isGenerating = true`) is not a no-op — the guard checks
only the missing input, so a second outbound request is issued and state slots
change. -/
theorem claim_C3_counterexample :
    (Vehicle.handleGenerateRemedy ⟨none, "ANALYSIS", false, none, "", true⟩
        (Except.ok "L")).2 = true ∧
    (Vehicle.handleGenerateRemedy ⟨none, "ANALYSIS", false, none, "", true⟩
        (Except.ok "L")).1 ≠ ⟨none, "ANALYSIS", false, none, "", true⟩ := by
  refine ⟨rfl, by decide⟩

/-- C3 (amended): invoking an AI-backed handler with its required input missing
is a no-op (no request, no state change); protection against a request already
in flight is provided at the UI level instead — the triggering affordance is
disabled while the loading flag is true, so a click then runs nothing and
changes nothing. -/
theorem claim_C3_amended (sv : Vehicle.State) (sd : DebtLog.State)
    (evV : Vehicle.AnalyzeEvent) (r : Except Unit String) :
    (sv.file = none → Vehicle.handleAnalyze sv evV = (sv, false)) ∧
    (sv.analysis = "" → Vehicle.handleGenerateRemedy sv r = (sv, false)) ∧
    (sd.newLog.description = "" → DebtLog.handleSuggestViolation sd r = (sd, false)) ∧
    (sv.isLoading = true → Vehicle.clickAnalyze sv evV = (sv, false)) ∧
    (sv.isGenerating = true → Vehicle.clickGenerateRemedy sv r = (sv, false)) ∧
    (sd.isSuggesting = true → DebtLog.clickSuggestViolation sd r = (sd, false)) := by
  refine ⟨?_, ?_, ?_, ?_, ?_, ?_⟩
  · intro h
    simp [Vehicle.handleAnalyze, h]
  · intro h
    simp [Vehicle.handleGenerateRemedy, h]
  · intro h
    simp [DebtLog.handleSuggestViolation, h]
  · intro h
    simp [Vehicle.clickAnalyze, Vehicle.analyzeDisabled, h]
  · intro h
    simp only [Vehicle.clickGenerateRemedy, Vehicle.generateRemedyDisabled, h]
    simp
  · intro h
    simp [DebtLog.clickSuggestViolation, DebtLog.suggestViolationDisabled, h]

/-- C3 witness for the amended claim: a concrete in-flight remedy state where a
click on the disabled button changes nothing. -/
theorem claim_C3_amended_witness :
    Vehicle.clickGenerateRemedy ⟨none, "A", false, none, "", true⟩ (Except.ok "L") =
      (⟨none, "A", false, none, "", true⟩, false) :=
  (claim_C3_amended ⟨none, "A", false, none, "", true⟩
      ⟨[], ⟨"", "", "", ""⟩, "", false, "", false, none⟩ (.api (Except.ok "x"))
      (Except.ok "L")).2.2.2.2.1 rfl

/-- C4: for every input text, the citation-extraction split produces an
alternating sequence of plain segments and citation tokens — each citation
token a bracketed UCC article-and-section reference — and concatenating the
text of all parts in order yields exactly the original text. -/
theorem claim_C4 (s : String) :
    Modal.segsJoin (Modal.splitCitations s) = s.data ∧
      Modal.AltSegs (Modal.splitCitations s) :=
  ⟨by simpa using Modal.scanSegs_join s.data.length [] s.data,
   Modal.scanSegs_alt s.data.length [] s.data⟩

/-- C5 counterexample: with a different citation's explanation displayed
before the first click, toggling a citation twice does not return the
component to the pre-expansion display state — the slot ends empty instead of
holding the previously displayed explanation. -/
theorem claim_C5_counterexample :
    (Modal.handleExplainSection
        (Modal.handleExplainSection (some ⟨"3-204", "prior explanation", false⟩)
          "3-205" (Except.ok "text")).1
        "3-205" (Except.ok "text")).1 ≠ some ⟨"3-204", "prior explanation", false⟩ := by
  decide

/-- C5 (amended): clicking a citation's explain affordance hides the
explanation exactly when the slot already shows that same citation with
non-empty text (no request issued); in every other slot state a secondary
request is issued and its result is stored; consequently toggling a citation
twice from a state with no explanation displayed (and a non-empty response)
returns the slot to empty. -/
theorem claim_C5_amended (sec t : String) (e : Modal.ExplanationState)
    (r : Except Unit String) (ht : t ≠ "") :
    (e.sectionId = sec → e.text ≠ "" →
        Modal.handleExplainSection (some e) sec r = (none, false)) ∧
    Modal.handleExplainSection none sec r = Modal.explainRequest sec r ∧
    (e.sectionId ≠ sec →
        Modal.handleExplainSection (some e) sec r = Modal.explainRequest sec r) ∧
    (e.text = "" →
        Modal.handleExplainSection (some e) sec r = Modal.explainRequest sec r) ∧
    (Modal.explainRequest sec r).2 = true ∧
    (Modal.handleExplainSection
        (Modal.handleExplainSection none sec (Except.ok t)).1 sec r).1 = none := by
  refine ⟨?_, rfl, ?_, ?_, ?_, ?_⟩
  · intro h1 h2
    simp [Modal.handleExplainSection, h1, h2]
  · intro h
    simp [Modal.handleExplainSection, h]
  · intro h
    simp [Modal.handleExplainSection, h]
  · cases r <;> rfl
  · simp [Modal.handleExplainSection, Modal.explainRequest, ht]

/-- C5 witness for the amended claim: a concrete same-citation toggle hides
the displayed explanation without issuing a request. -/
theorem claim_C5_amended_witness :
    Modal.handleExplainSection (some ⟨"3-205", "shown", false⟩) "3-205" (Except.ok "x") =
      (none, false) :=
  (claim_C5_amended "3-205" "x" ⟨"3-205", "shown", false⟩ (Except.ok "x")
      (by decide)).1 rfl (by decide)

/-- C6: a resource is in the filtered result iff it is in the list and the
query is a case-insensitive substring of its name, URL, or category; the
rendered groups carry, per category key, exactly the filtered resources whose
key (trimmed category, defaulting to Uncategorized) equals it; every filtered
resource's key appears among the rendered group labels; and the group labels
are in ascending order. -/
theorem claim_C6 (rs : List Legal.Resource) (q : String) (r : Legal.Resource)
    (k : String) (items : List Legal.Resource) :
    (r ∈ Legal.filteredResources rs q ↔
       r ∈ rs ∧ (SubstrOf (lowerChars q) (lowerChars r.name) ∨
                 SubstrOf (lowerChars q) (lowerChars r.url) ∨
                 SubstrOf (lowerChars q) (lowerChars r.category))) ∧
    ((k, items) ∈ Legal.renderGroups rs q →
       items = (Legal.filteredResources rs q).filter (fun x => Legal.catKey x == k)) ∧
    (r ∈ Legal.filteredResources rs q →
       Legal.catKey r ∈ (Legal.renderGroups rs q).map Prod.fst) ∧
    List.Pairwise (fun a b => strLe a b = true) ((Legal.renderGroups rs q).map Prod.fst) := by
  refine ⟨?_, ?_, ?_, ?_⟩
  · simp only [Legal.filteredResources, List.mem_filter, Legal.matchesQuery,
      Bool.or_eq_true, containsSub_iff]
    tauto
  · intro h
    exact Legal.mem_groupedResources _ _ _
      ((List.perm_insertionSort Legal.groupLe _).mem_iff.mp h)
  · intro h
    have hk : Legal.catKey r ∈ Legal.groupKeys (Legal.filteredResources rs q) :=
      Legal.catKey_mem_groupKeys _ _ h
    have hperm :
        List.Perm ((Legal.renderGroups rs q).map Prod.fst)
          ((Legal.groupedResources (Legal.filteredResources rs q)).map Prod.fst) :=
      (List.perm_insertionSort Legal.groupLe _).map Prod.fst
    rw [Legal.fst_groupedResources] at hperm
    exact hperm.mem_iff.mpr hk
  · have hs := List.sorted_insertionSort Legal.groupLe
      (Legal.groupedResources (Legal.filteredResources rs q))
    exact List.Pairwise.map Prod.fst (fun a b hab => hab) hs

/-- C6 witness: with the seeded list and query UCC, the key of the first UCC
entry appears among the rendered group labels. -/
theorem claim_C6_witness :
    Legal.catKey ⟨"UCC Article 3 - Negotiable Instruments",
        "https://www.law.cornell.edu/ucc/3", "UCC"⟩ ∈
      (Legal.renderGroups Legal.initialResources "UCC").map Prod.fst :=
  (claim_C6 Legal.initialResources "UCC"
      ⟨"UCC Article 3 - Negotiable Instruments", "https://www.law.cornell.edu/ucc/3", "UCC"⟩
      "" []).2.2.1 (by decide)

/-- C7: submitting the log form with all required fields populated appends
exactly one new entry, rendered at the top of the most-recent-first history,
with its id the current time and the currently displayed draft suggestion
frozen into it, after which the draft form and draft suggestion are cleared;
submitting with a required field empty appends no entry. -/
theorem claim_C7 (s : DebtLog.State) (now : Nat) :
    (s.newLog.date ≠ "" → s.newLog.collectorName ≠ "" → s.newLog.company ≠ "" →
      s.newLog.description ≠ "" →
      DebtLog.renderedLogs (DebtLog.submitLog s now) =
        ⟨now, s.newLog.date, s.newLog.collectorName, s.newLog.company,
          s.newLog.description, s.violationSuggestion⟩ :: DebtLog.renderedLogs s ∧
      (DebtLog.submitLog s now).logs.length = s.logs.length + 1 ∧
      (DebtLog.submitLog s now).newLog = ⟨"", "", "", ""⟩ ∧
      (DebtLog.submitLog s now).violationSuggestion = "") ∧
    ((s.newLog.date = "" ∨ s.newLog.collectorName = "" ∨ s.newLog.company = "" ∨
        s.newLog.description = "") →
      DebtLog.submitLog s now = s) := by
  constructor
  · intro h1 h2 h3 h4
    have hguard : ¬(s.newLog.date = "" ∨ s.newLog.collectorName = "" ∨
        s.newLog.company = "" ∨ s.newLog.description = "") := by
      simp [h1, h2, h3, h4]
    simp [DebtLog.submitLog, hguard, DebtLog.handleAddLog, DebtLog.renderedLogs]
  · intro h
    simp only [DebtLog.submitLog, if_pos h]

/-- C7 witness: a concrete populated draft is appended and frozen; the same
state with an empty company field appends nothing. -/
theorem claim_C7_witness :
    DebtLog.renderedLogs
        (DebtLog.submitLog
          ⟨[], ⟨"2024-05-01", "Jane", "Acme Collections", "called repeatedly"⟩,
           "possible FDCPA 806 issue", false, "", false, none⟩ 1714550400000) =
      [⟨1714550400000, "2024-05-01", "Jane", "Acme Collections", "called repeatedly",
        "possible FDCPA 806 issue"⟩] ∧
    DebtLog.submitLog
        ⟨[], ⟨"2024-05-01", "Jane", "", "called repeatedly"⟩, "", false, "", false, none⟩ 7 =
      ⟨[], ⟨"2024-05-01", "Jane", "", "called repeatedly"⟩, "", false, "", false, none⟩ := by
  constructor
  · exact ((claim_C7
      ⟨[], ⟨"2024-05-01", "Jane", "Acme Collections", "called repeatedly"⟩,
       "possible FDCPA 806 issue", false, "", false, none⟩ 1714550400000).1
      (by decide) (by decide) (by decide) (by decide)).1
  · exact (claim_C7
      ⟨[], ⟨"2024-05-01", "Jane", "", "called repeatedly"⟩, "", false, "", false, none⟩ 7).2
      (by simp)

/-- C8: adding a resource succeeds exactly when all three draft fields are
non-empty, in which case the resource is appended at the end of the list and
the form fields reset; otherwise the state is unchanged. -/
theorem claim_C8 (s : Legal.State) :
    (s.newResource.name ≠ "" → s.newResource.url ≠ "" → s.newResource.category ≠ "" →
      Legal.handleAddResource s =
        { s with resources := s.resources ++ [s.newResource], newResource := ⟨"", "", ""⟩ }) ∧
    ((s.newResource.name = "" ∨ s.newResource.url = "" ∨ s.newResource.category = "") →
      Legal.handleAddResource s = s) := by
  constructor
  · intro h1 h2 h3
    simp [Legal.handleAddResource, h1, h2, h3]
  · intro h
    have hguard : ¬(s.newResource.name ≠ "" ∧ s.newResource.url ≠ "" ∧
        s.newResource.category ≠ "") := by
      tauto
    simp only [Legal.handleAddResource, if_neg hguard]

/-- C8 witness: a concrete complete draft is appended at the end and the form
resets; a draft with an empty category leaves the state unchanged. -/
theorem claim_C8_witness :
    Legal.handleAddResource
        ⟨Legal.initialResources, "", ⟨"CFPB", "https://www.consumerfinance.gov", "Agencies"⟩⟩ =
      ⟨Legal.initialResources ++ [⟨"CFPB", "https://www.consumerfinance.gov", "Agencies"⟩],
       "", ⟨"", "", ""⟩⟩ ∧
    Legal.handleAddResource ⟨Legal.initialResources, "", ⟨"CFPB", "", ""⟩⟩ =
      ⟨Legal.initialResources, "", ⟨"CFPB", "", ""⟩⟩ := by
  constructor
  · exact (claim_C8
      ⟨Legal.initialResources, "", ⟨"CFPB", "https://www.consumerfinance.gov", "Agencies"⟩⟩).1
      (by decide) (by decide) (by decide)
  · exact (claim_C8 ⟨Legal.initialResources, "", ⟨"CFPB", "", ""⟩⟩).2 (by simp)

/-- C9: with the seeded initial resource list, the query UCC returns exactly
the two seeded UCC entries grouped under a single UCC heading, and the query
nonexistent-xyz returns an empty result so the empty-state message is
rendered. -/
theorem claim_C9 :
    Legal.filteredResources Legal.initialResources "UCC" =
      [⟨"UCC Article 3 - Negotiable Instruments", "https://www.law.cornell.edu/ucc/3", "UCC"⟩,
       ⟨"UCC Article 9 - Secured Transactions", "https://www.law.cornell.edu/ucc/9", "UCC"⟩] ∧
    Legal.renderGroups Legal.initialResources "UCC" =
      [("UCC",
        [⟨"UCC Article 3 - Negotiable Instruments", "https://www.law.cornell.edu/ucc/3", "UCC"⟩,
         ⟨"UCC Article 9 - Secured Transactions", "https://www.law.cornell.edu/ucc/9",
          "UCC"⟩])] ∧
    Legal.emptyStateShown Legal.initialResources "UCC" = false ∧
    Legal.filteredResources Legal.initialResources "nonexistent-xyz" = [] ∧
    Legal.renderGroups Legal.initialResources "nonexistent-xyz" = [] ∧
    Legal.emptyStateShown Legal.initialResources "nonexistent-xyz" = true := by
  refine ⟨?_, ?_, ?_, ?_, ?_, ?_⟩ <;> decide

/-- C10: invoking the file-change handler with an empty file selection (a null
FileList or one with no entries) leaves every state field of either upload
screen unchanged. -/
theorem claim_C10 (si : Instrument.State) (sv : Vehicle.State) :
    Instrument.handleFileChange si none = si ∧
    Instrument.handleFileChange si (some []) = si ∧
    Vehicle.handleFileChange sv none = sv ∧
    Vehicle.handleFileChange sv (some []) = sv :=
  ⟨rfl, rfl, rfl, rfl⟩
